import Mathlib

/-!
Shallow embedding of the AICheMale repository (an Electron host that
supervises a Python analytics worker and records gaze/emotion telemetry).

Sources embedded here:
- src/electron-app/renderer/js/app.js (telemetry client, session recorder,
  session controller, export pipeline)
- src/electron-app/main.js (process supervisor for the Python backend)

JavaScript runtime values are modelled by the inductive type JVal; the
undefined value is modelled as the none case of Option JVal.  Numbers are
modelled as rationals (no NaN or infinity; JSON literals are finite
decimals).  Each renderer event handler is a pure function from the
application state to a new state, a list of emitted effects, and an
optional uncaught exception, exactly following control flow of app.js.
-/

/-- a JSON-like JavaScript value (undefined is modelled as none at use
sites, via Option JVal) -/
inductive JVal where
  | null
  | bool (b : Bool)
  | num (q : Rat)
  | str (s : String)
  | arr (elems : List JVal)
  | obj (fields : List (String × JVal))

/-- first matching field of a JavaScript object, as in property lookup -/
def lookupField (k : String) : List (String × JVal) → Option JVal
  | [] => none
  | (k', v) :: rest => if k' = k then some v else lookupField k rest

/-- a JavaScript runtime exception escaping an event handler -/
inductive JsError where
  | syntaxError
  | typeError
deriving DecidableEq

/-- property access v.k with JavaScript semantics: throws TypeError on
null or undefined, looks up object fields, and yields undefined on other
primitives and arrays (no named field such as type, data, gaze is ever a
built-in property of those) -/
def getProp : Option JVal → String → Except JsError (Option JVal)
  | none, _ => .error .typeError
  | some .null, _ => .error .typeError
  | some (.obj fs), k => .ok (lookupField k fs)
  | some _, _ => .ok none

/-- JavaScript truthiness of a value (NaN does not arise in this model) -/
def truthy : Option JVal → Bool
  | none => false
  | some .null => false
  | some (.bool b) => b
  | some (.num q) => !(q == 0)
  | some (.str s) => !(s == "")
  | some (.arr _) => true
  | some (.obj _) => true

/-- strict equality of a value with a string literal, as in
message.type === some-literal -/
def strictEqStr : Option JVal → String → Bool
  | some (.str s), t => s == t
  | _, _ => false

/-- object spread as in the literal with three dots: objects contribute
their fields, arrays and strings their indexed elements, and null,
undefined, booleans and numbers contribute nothing -/
def spreadFields : Option JVal → List (String × JVal)
  | none => []
  | some .null => []
  | some (.obj fs) => fs
  | some (.arr xs) => (xs.enum.map (fun p => (toString p.1, p.2)))
  | some (.str s) => (s.toList.enum.map (fun p => (toString p.1, JVal.str (String.mk [p.2]))))
  | some (.bool _) => []
  | some (.num _) => []

/-- emotion.charAt(0).toUpperCase() + emotion.slice(1) on a string -/
def jsCapitalize (s : String) : String := (s.take 1).toUpper ++ s.drop 1

/-- field lookup on a JVal that is expected to be an object -/
def JVal.getField : JVal → String → Option JVal
  | .obj fs, k => lookupField k fs
  | _, _ => none

/-- list of field names of a JVal object -/
def JVal.fieldNames : JVal → List String
  | .obj fs => fs.map Prod.fst
  | _ => []

/-- a recorded gaze point, pushed at app.js:176-180; the push is reached
only after gazeX.toFixed and gazeY.toFixed succeeded, so both
coordinates are numbers -/
structure GazeSample where
  x : Rat
  y : Rat
  timestamp : Nat
deriving DecidableEq

/-- a recorded emotion entry, pushed at app.js:202-206; the push is
reached only after emotion.charAt succeeded, so the label is a string;
the scores are the object spread of whatever emotion_scores held -/
structure EmotionEntry where
  emotion : String
  scores : List (String × JVal)
  timestamp : Nat

/-- the object literal actually pushed at app.js:202-206: fields
emotion, scores and timestamp, and nothing else -/
def EmotionEntry.toJs (e : EmotionEntry) : JVal :=
  .obj [("emotion", .str e.emotion), ("scores", .obj e.scores),
        ("timestamp", .num e.timestamp)]

/-- state.sessionData of app.js -/
structure SessionData where
  startTime : Option Nat
  emotions : List EmotionEntry
  gazePoints : List GazeSample

/-- disabled attributes of the four control buttons -/
structure Buttons where
  startDisabled : Bool
  stopDisabled : Bool
  calibrateDisabled : Bool
  exportDisabled : Bool
deriving DecidableEq

/-- readyState of the WebSocket object -/
inductive ReadyState where
  | connecting
  | opened
  | closing
  | closed
deriving DecidableEq

/-- renderer application state: state of app.js plus button affordances;
ws is none while state.wsConnection is null -/
structure AppState where
  isTracking : Bool
  ws : Option ReadyState
  sessionData : SessionData
  buttons : Buttons
  gazeData : Option JVal × Option JVal
  currentEmotions : Option JVal

/-- one of the four control buttons -/
inductive Btn where
  | start
  | stop
  | calibrate
  | export
deriving DecidableEq

/-- an observable effect emitted by a renderer event handler -/
inductive UiAction where
  | send (msg : JVal)
  | logMsg (s : String)
  | logResponse (command status : Option JVal)
  | logDetected (emotion : String) (confidence : Option JVal)
  | setGazeXText (q : Rat)
  | setGazeYText (q : Rat)
  | setEmotionText (s : String)
  | setConfidenceText (v : Option JVal)
  | updateBars (scores : Option JVal)
  | drawGaze (x y : Rat)
  | clearCanvas
  | enable (b : Btn)
  | disable (b : Btn)
  | startVideoFeed

/-- result of running one renderer event handler: the state reached,
the effects emitted before any throw, and an uncaught exception if one
escaped (mutations made before a throw persist, as in JavaScript) -/
structure StepResult where
  state : AppState
  actions : List UiAction
  error : Option JsError

/-- the serialized outbound command object {command: name} -/
def commandMessage (name : String) : JVal := .obj [("command", .str name)]

/-- a number receiving a toFixed call: any other value raises TypeError -/
def toFixedNum : Option JVal → Except JsError Rat
  | some (.num q) => .ok q
  | _ => .error .typeError

/-- a string receiving a charAt call: any other value raises TypeError -/
def charAtStr : Option JVal → Except JsError String
  | some (.str s) => .ok s
  | _ => .error .typeError

/-- emotion branch of handleTrackingData (app.js:187-212), entered with
the state and actions accumulated by the gaze branch -/
def emotionBranch (data : Option JVal) (now : Nat) (rnd5 : Bool)
    (st : AppState) (acts : List UiAction) : StepResult :=
  match getProp data "emotion" with
  | .error e => ⟨st, acts, some e⟩
  | .ok emoVal =>
    if truthy emoVal then
      match getProp emoVal "emotion" with
      | .error e => ⟨st, acts, some e⟩
      | .ok emotion =>
        match getProp emoVal "emotion_scores" with
        | .error e => ⟨st, acts, some e⟩
        | .ok emotionScores =>
          match getProp emoVal "confidence" with
          | .error e => ⟨st, acts, some e⟩
          | .ok conf0 =>
            let confidence := if truthy conf0 then conf0 else some (.num 0)
            let st1 := { st with currentEmotions := emotionScores }
            match charAtStr emotion with
            | .error e => ⟨st1, acts, some e⟩
            | .ok s =>
              let st2 := { st1 with sessionData :=
                { st1.sessionData with emotions :=
                    st1.sessionData.emotions ++
                      [⟨s, spreadFields emotionScores, now⟩] } }
              ⟨st2,
               acts ++
                 [UiAction.setEmotionText (jsCapitalize s),
                  UiAction.setConfidenceText confidence,
                  UiAction.updateBars emotionScores] ++
                 (if rnd5 then [UiAction.logDetected s confidence] else []),
               none⟩
    else ⟨st, acts, none⟩

/-- handleTrackingData of app.js:161-213: a no-op outside tracking,
otherwise the gaze branch followed by the emotion branch -/
def handleTrackingData (data : Option JVal) (now : Nat) (rnd5 : Bool)
    (st : AppState) : StepResult :=
  if !st.isTracking then ⟨st, [], none⟩
  else
    match getProp data "gaze" with
    | .error e => ⟨st, [], some e⟩
    | .ok gazeVal =>
      if truthy gazeVal then
        match getProp gazeVal "GazeX" with
        | .error e => ⟨st, [], some e⟩
        | .ok gx =>
          match getProp gazeVal "GazeY" with
          | .error e => ⟨st, [], some e⟩
          | .ok gy =>
            let st1 := { st with gazeData := (gx, gy) }
            match toFixedNum gx with
            | .error e => ⟨st1, [], some e⟩
            | .ok qx =>
              match toFixedNum gy with
              | .error e => ⟨st1, [UiAction.setGazeXText qx], some e⟩
              | .ok qy =>
                let st2 := { st1 with sessionData :=
                  { st1.sessionData with gazePoints :=
                      st1.sessionData.gazePoints ++ [⟨qx, qy, now⟩] } }
                emotionBranch data now rnd5 st2
                  [UiAction.setGazeXText qx, UiAction.setGazeYText qy,
                   UiAction.drawGaze qx qy]
      else emotionBranch data now rnd5 st []

/-- the onmessage handler of app.js:131-139; raw is none when
JSON.parse would fail on the inbound text, some v when it parses to v -/
def onmessage (raw : Option JVal) (now : Nat) (rnd5 : Bool)
    (st : AppState) : StepResult :=
  match raw with
  | none => ⟨st, [], some .syntaxError⟩
  | some message =>
    match getProp (some message) "type" with
    | .error e => ⟨st, [], some e⟩
    | .ok ty =>
      if strictEqStr ty "tracking_data" then
        match getProp (some message) "data" with
        | .error e => ⟨st, [], some e⟩
        | .ok data => handleTrackingData data now rnd5 st
      else if strictEqStr ty "command_response" then
        match getProp (some message) "command", getProp (some message) "status" with
        | .ok c, .ok s => ⟨st, [UiAction.logResponse c s], none⟩
        | .error e, _ => ⟨st, [], some e⟩
        | .ok _, .error e => ⟨st, [], some e⟩
      else ⟨st, [], none⟩

/-- startTracking of app.js:246-272 -/
def startTracking (now : Nat) (st : AppState) : AppState × List UiAction :=
  if !(st.ws == some .opened) then
    (st, [UiAction.logMsg "Cannot start: No connection to server."])
  else
    ({ st with
        sessionData := ⟨some now, [], []⟩,
        isTracking := true,
        buttons := { st.buttons with
          startDisabled := true, stopDisabled := false,
          calibrateDisabled := false } },
     [UiAction.logMsg "Starting tracking session...",
      UiAction.send (commandMessage "start_tracking"),
      UiAction.disable .start, UiAction.enable .stop, UiAction.enable .calibrate,
      UiAction.startVideoFeed])

/-- stopTracking of app.js:275-297 -/
def stopTracking (st : AppState) : AppState × List UiAction :=
  if !st.isTracking then (st, [])
  else
    ({ st with
        isTracking := false,
        buttons := { st.buttons with
          startDisabled := false, stopDisabled := true,
          calibrateDisabled := true, exportDisabled := false } },
     [UiAction.logMsg "Stopping tracking session..."] ++
     (if st.ws == some .opened then
        [UiAction.send (commandMessage "stop_tracking")] else []) ++
     [UiAction.enable .start, UiAction.disable .stop, UiAction.disable .calibrate,
      UiAction.enable .export, UiAction.clearCanvas,
      UiAction.logMsg "Session stopped. Data can now be exported."])

/-- calibrateGaze of app.js:300-308 -/
def calibrateGaze (st : AppState) : AppState × List UiAction :=
  if !st.isTracking then (st, [])
  else
    (st,
     [UiAction.logMsg "Starting calibration process..."] ++
     (if st.ws == some .opened then
        [UiAction.send (commandMessage "calibrate")] else []))

/-- the onclose handler of app.js:141-147 -/
def oncloseHandler (st : AppState) : AppState × List UiAction :=
  ({ st with
      isTracking := false,
      buttons := { st.buttons with
        startDisabled := true, stopDisabled := true,
        calibrateDisabled := true } },
   [UiAction.logMsg "Connection to server closed.",
    UiAction.disable .start, UiAction.disable .stop, UiAction.disable .calibrate])

/-- the onerror handler of app.js:149-152: diagnostic logging only -/
def onerrorHandler (st : AppState) : AppState × List UiAction :=
  (st, [UiAction.logMsg "WebSocket error: Please make sure the Python server is running."])

/-- a channel close event: the socket reaches the closed readyState and
the onclose handler runs -/
def channelClosed (st : AppState) : AppState × List UiAction :=
  oncloseHandler { st with ws := some .closed }

/-- a channel transport error: per the WebSocket API an error event on
the connection is always followed by a close event, so the episode runs
the onerror handler and then the onclose handler -/
def channelError (st : AppState) : AppState × List UiAction :=
  match onerrorHandler { st with ws := some .closed } with
  | (st1, a1) =>
    match oncloseHandler st1 with
    | (st2, a2) => (st2, a1 ++ a2)

/-- the onopen handler of app.js:126-129 -/
def channelOpened (st : AppState) : AppState × List UiAction :=
  ({ st with
      ws := some ReadyState.opened,
      buttons := { st.buttons with startDisabled := false } },
   [UiAction.logMsg "Connected to server successfully.", UiAction.enable .start])

/-- occurrence-count bump as in app.js:362: an existing key is
incremented in place, a new key is appended (JavaScript objects keep
string keys in insertion order) -/
def bumpCount : List (String × Nat) → String → List (String × Nat)
  | [], k => [(k, 1)]
  | (k', v) :: rest, k =>
    if k' = k then (k', v + 1) :: rest else (k', v) :: bumpCount rest k

/-- numeric value of a digit string -/
def keyNum (s : String) : Nat :=
  s.toList.foldl (fun n ch => 10 * n + (ch.toNat - 48)) 0

/-- whether a string is a canonical array-index key (a non-empty digit
string with no leading zero, below 2^32 - 1); such keys are enumerated
first, in ascending numeric order, by a JavaScript for-in loop -/
def isArrayIndexKey (s : String) : Bool :=
  match s.toList with
  | [] => false
  | c :: cs =>
    (c :: cs).all Char.isDigit &&
    (c != '0' || cs.isEmpty) &&
    decide (keyNum s < 4294967295)

/-- insertion of a pair into a list sorted by numeric key -/
def insertByNum (x : String × Nat) : List (String × Nat) → List (String × Nat)
  | [] => [x]
  | y :: ys => if keyNum x.1 ≤ keyNum y.1 then x :: y :: ys
               else y :: insertByNum x ys

/-- sort by ascending numeric key -/
def sortByNum : List (String × Nat) → List (String × Nat)
  | [] => []
  | x :: xs => insertByNum x (sortByNum xs)

/-- enumeration order of a for-in loop over a plain object: canonical
array-index keys first in ascending numeric order, then the remaining
string keys in insertion order -/
def forInOrder (fs : List (String × Nat)) : List (String × Nat) :=
  sortByNum (fs.filter (fun p => isArrayIndexKey p.1)) ++
    fs.filter (fun p => !isArrayIndexKey p.1)

/-- the loop of app.js:369-374: starting from neutral and count 0, take
each entry whose count strictly exceeds the running maximum -/
def primaryScan (l : List (String × Nat)) : String × Nat :=
  l.foldl (fun pm kc => if kc.2 > pm.2 then kc else pm) ("neutral", 0)

/-- the value returned by generateSummary (app.js:350-383); the branch
with no emotion samples returns an object carrying only primaryEmotion
and emotionCounts, so the remaining fields are optional here and none
models an absent field -/
structure Summary where
  primaryEmotion : String
  emotionCounts : List (String × Nat)
  totalEmotionSamples : Option Nat
  totalGazeSamples : Option Nat
  sessionDurationMs : Option Int
deriving DecidableEq

/-- generateSummary of app.js:350-383; now is Date.now() at the call -/
def generateSummary (now : Nat) (sd : SessionData) : Summary :=
  if sd.emotions.length = 0 then
    { primaryEmotion := "none", emotionCounts := [],
      totalEmotionSamples := none, totalGazeSamples := none,
      sessionDurationMs := none }
  else
    let counts := (sd.emotions.map (fun e => e.emotion)).foldl bumpCount []
    { primaryEmotion := (primaryScan (forInOrder counts)).1,
      emotionCounts := counts,
      totalEmotionSamples := some sd.emotions.length,
      totalGazeSamples := some sd.gazePoints.length,
      sessionDurationMs := some ((now : Int) - ((sd.startTime.getD 0 : Nat) : Int)) }

/-- the export artifact built at app.js:320-327 (instants are kept as
raw millisecond values; the ISO rendering is presentation only) -/
structure ExportArtifact where
  sessionId : Option Nat
  startTime : Option Nat
  endTime : Nat
  emotions : List EmotionEntry
  gazePoints : List GazeSample
  summary : Summary

/-- exportData of app.js:311-347 as a function of the session: none is
the NoData early return of app.js:312-315, where no artifact is built -/
def exportData (now : Nat) (sd : SessionData) : Option ExportArtifact :=
  if sd.emotions.length = 0 && sd.gazePoints.length = 0 then none
  else some
    { sessionId := sd.startTime, startTime := sd.startTime, endTime := now,
      emotions := sd.emotions, gazePoints := sd.gazePoints,
      summary := generateSummary now sd }

/-- a gaze section of a wire-protocol tracking_data frame -/
structure GazeSection where
  GazeX : Rat
  GazeY : Rat

/-- an emotion section of a wire-protocol tracking_data frame -/
structure EmotionSection where
  emotion : String
  emotion_scores : List (String × Rat)
  confidence : Option Rat

/-- a wire-protocol tracking_data frame: both sections optional -/
structure TrackingFrame where
  gaze : Option GazeSection
  emotion : Option EmotionSection

/-- JSON encoding of a gaze section -/
def gazeSectionJs (g : GazeSection) : JVal :=
  .obj [("GazeX", .num g.GazeX), ("GazeY", .num g.GazeY)]

/-- JSON encoding of an emotion section; the confidence member is
present only when the section carries one -/
def emotionSectionJs (e : EmotionSection) : JVal :=
  .obj ([("emotion", .str e.emotion),
         ("emotion_scores", .obj (e.emotion_scores.map (fun p => (p.1, JVal.num p.2))))] ++
        (match e.confidence with
         | some c => [("confidence", JVal.num c)]
         | none => []))

/-- JSON encoding of a whole tracking_data frame -/
def trackingFrameJs (f : TrackingFrame) : JVal :=
  .obj [("type", .str "tracking_data"),
        ("data", .obj
          ((match f.gaze with
            | some g => [("gaze", gazeSectionJs g)]
            | none => []) ++
           (match f.emotion with
            | some e => [("emotion", emotionSectionJs e)]
            | none => [])))]

/-- the gaze sample the handler records for an emotion-scores object -/
def emotionEntryOf (e : EmotionSection) (now : Nat) : EmotionEntry :=
  ⟨e.emotion, e.emotion_scores.map (fun p => (p.1, JVal.num p.2)), now⟩

/-- sequential processing of a list of inbound tracking_data frames,
each tagged with its receipt time and the random-log draw; errors of
individual frames are collected, state is threaded through -/
def runFrames (st : AppState) : List (TrackingFrame × Nat × Bool) → AppState × List JsError
  | [] => (st, [])
  | (f, now, rnd) :: rest =>
    let r := onmessage (some (trackingFrameJs f)) now rnd st
    let rec_rest := runFrames r.state rest
    (rec_rest.1,
     (match r.error with | some e => [e] | none => []) ++ rec_rest.2)

/-- gaze samples contributed by a list of frames, in receipt order -/
def framesGaze : List (TrackingFrame × Nat × Bool) → List GazeSample
  | [] => []
  | (f, now, _) :: rest =>
    (match f.gaze with
     | some g => [⟨g.GazeX, g.GazeY, now⟩]
     | none => []) ++ framesGaze rest

/-- emotion entries contributed by a list of frames, in receipt order -/
def framesEmotions : List (TrackingFrame × Nat × Bool) → List EmotionEntry
  | [] => []
  | (f, now, _) :: rest =>
    (match f.emotion with
     | some e => [emotionEntryOf e now]
     | none => []) ++ framesEmotions rest

/-- number of present gaze plus emotion sections across a frame list -/
def sectionCount : List (TrackingFrame × Nat × Bool) → Nat
  | [] => 0
  | (f, _, _) :: rest =>
    (match f.gaze with | some _ => 1 | none => 0) +
    (match f.emotion with | some _ => 1 | none => 0) + sectionCount rest

/-- host platform, the three branches of main.js:124-130 -/
inductive Platform where
  | win32
  | darwin
  | linux
deriving DecidableEq

/-- the worker process handle held in the pythonProcess variable -/
structure PyProc where
  pid : Nat
deriving DecidableEq

/-- an observable effect of the main-process supervisor -/
inductive MainAction where
  | logMain (s : String)
  | logExit (code : Int)
  | spawnWorker (plat : Platform)
  | spawnTaskkill (pid : Nat)
  | killProc (pid : Nat)
deriving DecidableEq

/-- startPythonBackend of main.js:120-156, with the spawned handle
supplied by the host; the path resolution has three platform branches -/
def startPythonBackend (plat : Platform) (newProc : PyProc)
    (_p : Option PyProc) : Option PyProc × List MainAction :=
  (some newProc, [MainAction.spawnWorker plat])

/-- the close observer registered at main.js:149-152: clears the handle -/
def onPythonClose (code : Int) (_p : Option PyProc) : Option PyProc × List MainAction :=
  (none, [MainAction.logExit code])

/-- stopPythonBackend of main.js:159-168: a no-op when the handle is
null, otherwise a forceful taskkill on win32 and a kill signal
elsewhere; the handle is not cleared here -/
def stopPythonBackend (plat : Platform) (p : Option PyProc) : Option PyProc × List MainAction :=
  match p with
  | none => (none, [])
  | some proc =>
    (some proc,
     [MainAction.logMain "Stopping Python backend..."] ++
     (if plat == .win32 then [MainAction.spawnTaskkill proc.pid]
      else [MainAction.killProc proc.pid]))

/-- whether a main-process effect is a termination attempt -/
def isKillAction : MainAction → Bool
  | .spawnTaskkill _ => true
  | .killProc _ => true
  | _ => false

/-- number of termination attempts in an effect list -/
def killCount (l : List MainAction) : Nat := (l.filter isKillAction).length

/-- whether a renderer effect writes a message to the channel -/
def isSend : UiAction → Bool
  | .send _ => true
  | _ => false

/-- the messages written to the channel among a list of effects -/
def sends (l : List UiAction) : List UiAction := l.filter isSend

/-- a command invocation fails with ChannelNotOpen when it leaves the
application state untouched and does nothing beyond surfacing a single
error notification to the user -/
def failsChannelNotOpen (op : AppState → AppState × List UiAction)
    (st : AppState) : Prop :=
  (op st).1 = st ∧ ∃ s, (op st).2 = [UiAction.logMsg s]

/-- Modelled from the spec: the list of distinct labels in
first-occurrence order, used to phrase the first-seen tie break of the
SessionSummary description in the spec -/
def firstOccs : List String → List String
  | [] => []
  | l :: ls => l :: (firstOccs ls).filter (fun k => k != l)

/-- Modelled from the spec: occurrence count of a label -/
def countOcc (k : String) : List String → Nat
  | [] => 0
  | l :: ls => (if l = k then 1 else 0) + countOcc k ls

/-- maximum of a list of naturals, zero for the empty list -/
def maxNat : List Nat → Nat
  | [] => 0
  | x :: xs => max x (maxNat xs)

/-- Modelled from the spec: the highest occurrence count among labels -/
def maxOccur (labels : List String) : Nat :=
  maxNat (labels.map (fun k => countOcc k labels))

/-- Modelled from the spec: the label with the highest occurrence count,
ties broken in favour of the first-seen label in occurrence order -/
def specFirstSeenMax (labels : List String) : Option String :=
  (firstOccs labels).find? (fun k => countOcc k labels == maxOccur labels)

/-- maximum of the count components of a counts list -/
def maxSnd (l : List (String × Nat)) : Nat := maxNat (l.map Prod.snd)

/-- key list of a counts list -/
def keysOf (l : List (String × Nat)) : List String := l.map Prod.fst

/-- initial disabled state of the four buttons; the markup is not part
of the sources, and the controls are unavailable before the channel
opens, matching the Idle affordances of the spec -/
def initButtons : Buttons := ⟨true, true, true, true⟩

/-- initial sessionData of app.js:48-52 -/
def initSessionData : SessionData := ⟨none, [], []⟩

/-- initial renderer state of app.js:43-53, before any channel event -/
def initAppState : AppState :=
  { isTracking := false, ws := none, sessionData := initSessionData,
    buttons := initButtons,
    gazeData := (some (.num (1/2)), some (.num (1/2))),
    currentEmotions := some (.obj []) }

/-- a state in which a tracking session is under way on an open channel -/
def trackingState : AppState :=
  { isTracking := true, ws := some ReadyState.opened,
    sessionData := ⟨some 0, [], []⟩,
    buttons := ⟨true, false, false, true⟩,
    gazeData := (some (.num (1/2)), some (.num (1/2))),
    currentEmotions := some (.obj []) }

/-- a state in which the transport has already closed while the queued
close event has not yet been dispatched, so isTracking is still true;
reachable because the user click task can run before the close task -/
def trackingDisconnected : AppState :=
  { trackingState with ws := some ReadyState.closed }

/-- a non-empty session holding one gaze point and no emotion samples -/
def sdGazeOnly : SessionData := ⟨some 0, [], [⟨1, 2, 3⟩]⟩

/-- a session with one emotion entry and one gaze point -/
def sdOneEach : SessionData := ⟨some 0, [⟨"happy", [], 1⟩], [⟨1, 2, 1⟩]⟩

/-- a session realizing the tie example of the spec: happy and sad each
occur three times, happy first -/
def sdTie : SessionData :=
  ⟨some 0,
   [⟨"happy", [], 1⟩, ⟨"sad", [], 2⟩, ⟨"happy", [], 3⟩,
    ⟨"sad", [], 4⟩, ⟨"happy", [], 5⟩, ⟨"sad", [], 6⟩],
   []⟩

/-- a wire frame carrying only an emotion section, with a confidence -/
def emoFrame : TrackingFrame :=
  { gaze := none, emotion := some ⟨"happy", [("happy", 1)], some 88⟩ }

/-- a wire frame carrying only a gaze section -/
def gazeFrame : TrackingFrame :=
  { gaze := some ⟨1, 2⟩, emotion := none }

/-- a wire frame carrying both sections -/
def bothFrame : TrackingFrame :=
  { gaze := some ⟨3, 4⟩, emotion := some ⟨"sad", [("sad", 1)], none⟩ }

/-- a wire frame carrying neither section -/
def emptyFrame : TrackingFrame := { gaze := none, emotion := none }

/-- an envelope whose discriminator is recognized by neither branch -/
def unknownTypeMsg : JVal := .obj [("type", .str "heartbeat"), ("seq", .num 1)]

/-- C10: for every state in which the controller is not in Tracking,
invoking the user stop command is a complete no-op: no stop_tracking
message is written to the channel, the recorded session data is
unchanged, and no UI affordance changes — the handler returns the state
untouched and emits no effect at all. -/
theorem C10_stop_outside_tracking_noop (st : AppState)
    (h : st.isTracking = false) : stopTracking st = (st, []) := by
  simp [stopTracking, h]

/-- witness for C10 at the initial state, which is not tracking -/
theorem C10_witness :
    initAppState.isTracking = false ∧
    stopTracking initAppState = (initAppState, []) :=
  ⟨rfl, C10_stop_outside_tracking_noop initAppState rfl⟩

/-- C9: from every controller state, a channel close event (and a
transport error episode, which per the WebSocket API always ends in the
close event) disables tracking and the start, stop and calibrate
affordances, leaves the recorded session data unchanged and the export
affordance untouched, and leaves the artifact produced by a subsequent
export unchanged. -/
theorem C9_channel_close_keeps_session (st : AppState) :
    (channelClosed st).1.isTracking = false ∧
    (channelClosed st).1.sessionData = st.sessionData ∧
    (channelClosed st).1.buttons.startDisabled = true ∧
    (channelClosed st).1.buttons.stopDisabled = true ∧
    (channelClosed st).1.buttons.calibrateDisabled = true ∧
    (channelClosed st).1.buttons.exportDisabled = st.buttons.exportDisabled ∧
    (∀ now, exportData now (channelClosed st).1.sessionData
      = exportData now st.sessionData) ∧
    (channelError st).1 = (channelClosed st).1 :=
  ⟨rfl, rfl, rfl, rfl, rfl, rfl, fun _ => rfl, rfl⟩

/-- C6: for every state outside Tracking, processing any inbound frame
whose discriminator is tracking_data leaves the whole application state
(in particular both recorded sample sequences) unchanged, emits no
effect and raises no error. -/
theorem C6_no_recording_outside_tracking (st : AppState) (msg : JVal)
    (now : Nat) (rnd : Bool)
    (hTrack : st.isTracking = false)
    (hType : getProp (some msg) "type" = .ok (some (.str "tracking_data"))) :
    onmessage (some msg) now rnd st = ⟨st, [], none⟩ := by
  cases msg with
  | obj fs =>
    simp only [getProp, Except.ok.injEq] at hType
    simp [onmessage, getProp, hType, strictEqStr, handleTrackingData, hTrack]
  | null => simp [getProp] at hType
  | bool b => simp [getProp] at hType
  | num q => simp [getProp] at hType
  | str s => simp [getProp] at hType
  | arr xs => simp [getProp] at hType

/-- witness for C6: a tracking_data frame with a gaze section arriving
at the initial state is not recorded -/
theorem C6_witness :
    initAppState.isTracking = false ∧
    onmessage (some (trackingFrameJs gazeFrame)) 7 false initAppState
      = ⟨initAppState, [], none⟩ :=
  ⟨rfl,
   C6_no_recording_outside_tracking initAppState (trackingFrameJs gazeFrame)
     7 false rfl (by simp [trackingFrameJs, gazeFrame, getProp, lookupField])⟩

/-- C3 (amended): a parsed inbound frame whose type discriminator is
neither tracking_data nor command_response is dropped: the state
(including the recorder and the connection) is unchanged, no effect is
emitted and no error is raised; an inbound frame that is not parseable,
however, raises a per-frame parse error escaping the handler, still
with no recorder mutation and with the connection state untouched. -/
theorem C3_unrecognized_frame_dropped (st : AppState) (msg : JVal)
    (ty : Option JVal) (now : Nat) (rnd : Bool)
    (hType : getProp (some msg) "type" = .ok ty)
    (h1 : strictEqStr ty "tracking_data" = false)
    (h2 : strictEqStr ty "command_response" = false) :
    onmessage (some msg) now rnd st = ⟨st, [], none⟩ ∧
    onmessage none now rnd st = ⟨st, [], some .syntaxError⟩ := by
  refine ⟨?_, rfl⟩
  cases msg with
  | obj fs =>
    simp only [getProp, Except.ok.injEq] at hType
    simp [onmessage, getProp, hType, h1, h2]
  | null => simp [getProp] at hType
  | bool b =>
    simp only [getProp, Except.ok.injEq] at hType
    simp [onmessage, getProp, strictEqStr]
  | num q =>
    simp only [getProp, Except.ok.injEq] at hType
    simp [onmessage, getProp, strictEqStr]
  | str s =>
    simp only [getProp, Except.ok.injEq] at hType
    simp [onmessage, getProp, strictEqStr]
  | arr xs =>
    simp only [getProp, Except.ok.injEq] at hType
    simp [onmessage, getProp, strictEqStr]

/-- counterexample for C3 as stated: an inbound frame that is not
parseable as the expected envelope structure is claimed to be dropped
with no error raised, but the handler applies JSON.parse without any
guard, so a SyntaxError escapes (the state, including the connection,
is nevertheless unchanged). -/
theorem C3_counterexample :
    (onmessage none 0 false initAppState).error = some JsError.syntaxError ∧
    (onmessage none 0 false initAppState).error ≠ none ∧
    (onmessage none 0 false initAppState).state = initAppState :=
  ⟨rfl, by decide, rfl⟩

/-- witness for C3: a frame with the unrecognized discriminator
heartbeat is dropped without any mutation or error at the initial
state, and an unparseable frame raises the parse error there -/
theorem C3_witness :
    onmessage (some unknownTypeMsg) 3 false initAppState
      = ⟨initAppState, [], none⟩ ∧
    onmessage none 3 false initAppState
      = ⟨initAppState, [], some .syntaxError⟩ :=
  C3_unrecognized_frame_dropped initAppState unknownTypeMsg
    (some (.str "heartbeat")) 3 false
    (by simp [unknownTypeMsg, getProp, lookupField])
    (by simp [strictEqStr]) (by simp [strictEqStr])

/-- C7 (amended): while the connection is not open, none of the three
commands writes any message to the channel; the user start command
fails with a ChannelNotOpen notification (the state is untouched and a
single error message is surfaced), while the user stop and calibrate
commands skip the send silently instead of failing. -/
theorem C7_commands_not_connected (st : AppState) (now : Nat)
    (h : st.ws ≠ some ReadyState.opened) :
    failsChannelNotOpen (startTracking now) st ∧
    sends (startTracking now st).2 = [] ∧
    sends (stopTracking st).2 = [] ∧
    sends (calibrateGaze st).2 = [] := by
  have hb : (st.ws == some ReadyState.opened) = false := by
    simp [beq_eq_false_iff_ne, h]
  refine ⟨⟨?_, ?_⟩, ?_, ?_, ?_⟩
  · simp [startTracking, hb]
  · exact ⟨"Cannot start: No connection to server.", by simp [startTracking, hb]⟩
  · simp [startTracking, hb, sends, isSend]
  · cases hT : st.isTracking <;>
      simp [stopTracking, hT, hb, sends, isSend, List.filter_append]
  · cases hT : st.isTracking <;>
      simp [calibrateGaze, hT, hb, sends, isSend, List.filter_append]

/-- counterexample for C7 as stated: in a reachable state where the
transport has closed but the close event has not yet been dispatched,
the user stop command does not fail with ChannelNotOpen — it performs
its full local stop (tracking is switched off and the export affordance
enabled) while still writing nothing to the channel. -/
theorem C7_counterexample :
    trackingDisconnected.isTracking = true ∧
    (stopTracking trackingDisconnected).1.isTracking = false ∧
    (stopTracking trackingDisconnected).1.buttons.exportDisabled = false ∧
    ¬ (failsChannelNotOpen stopTracking trackingDisconnected ∧
       sends (stopTracking trackingDisconnected).2 = []) := by
  refine ⟨rfl, rfl, rfl, ?_⟩
  rintro ⟨⟨hstate, -⟩, -⟩
  have := congrArg (fun a => a.isTracking) hstate
  simp [stopTracking, trackingDisconnected, trackingState] at this

/-- witness for C7 in the never-connected initial state: no command
writes to the channel and the start command fails -/
theorem C7_witness :
    failsChannelNotOpen (startTracking 4) initAppState ∧
    sends (startTracking 4 initAppState).2 = [] ∧
    sends (stopTracking initAppState).2 = [] ∧
    sends (calibrateGaze initAppState).2 = [] :=
  C7_commands_not_connected initAppState 4 (by simp [initAppState])

/-- C4 (amended): stop on the Process Supervisor is a no-op with no
error and no termination attempt when no worker handle is live — both
when no worker was ever started and after the exit observer has cleared
the handle; while a handle is live, however, every stop call issues
exactly one termination attempt and leaves the handle in place, so two
stop calls before the exit event each issue an attempt. -/
theorem C4_stop_behaviour (plat : Platform) (p : Option PyProc)
    (code : Int) (proc : PyProc) :
    stopPythonBackend plat none = (none, []) ∧
    stopPythonBackend plat (onPythonClose code p).1 = (none, []) ∧
    killCount (stopPythonBackend plat (some proc)).2 = 1 ∧
    (stopPythonBackend plat (some proc)).1 = some proc := by
  refine ⟨rfl, rfl, ?_, ?_⟩ <;>
    cases hp : (plat == Platform.win32) <;>
      simp [stopPythonBackend, killCount, isKillAction, hp]

/-- counterexample for C4 as stated: calling stop twice in a row with a
live worker (before its exit event has fired, which stop never awaits)
issues two termination attempts for the same worker, because stop does
not clear the handle — only the exit observer does. -/
theorem C4_counterexample :
    killCount ((stopPythonBackend .linux (some ⟨7⟩)).2 ++
        (stopPythonBackend .linux
          (stopPythonBackend .linux (some ⟨7⟩)).1).2) = 2 ∧
    ¬ killCount ((stopPythonBackend .linux (some ⟨7⟩)).2 ++
        (stopPythonBackend .linux
          (stopPythonBackend .linux (some ⟨7⟩)).1).2) ≤ 1 := by
  refine ⟨rfl, by decide⟩

/-- C8 (amended): every emotion sample the Session Recorder stores is
the object literal with exactly the fields emotion (the label), scores
and timestamp; it does not carry the confidence value of the data
model (confidence is only displayed live and then discarded). -/
theorem C8_recorded_emotion_fields (e : EmotionEntry) :
    e.toJs.fieldNames = ["emotion", "scores", "timestamp"] ∧
    e.toJs.getField "emotion" = some (.str e.emotion) ∧
    e.toJs.getField "scores" = some (.obj e.scores) ∧
    e.toJs.getField "timestamp" = some (.num e.timestamp) ∧
    e.toJs.getField "confidence" = none := by
  refine ⟨rfl, ?_, ?_, ?_, ?_⟩ <;>
    simp [EmotionEntry.toJs, JVal.getField, lookupField]

/-- counterexample for C8 as stated: a tracking_data frame whose
emotion section does carry a confidence of 88 is processed during
Tracking, yet the recorded emotion sample lacks the confidence field
entirely, so not all four EmotionSample fields are carried. -/
theorem C8_counterexample :
    (emotionSectionJs ⟨"happy", [("happy", 1)], some 88⟩).getField "confidence"
      = some (.num 88) ∧
    (onmessage (some (trackingFrameJs emoFrame)) 5 false
        trackingState).state.sessionData.emotions
      = [⟨"happy", [("happy", JVal.num 1)], 5⟩] ∧
    (EmotionEntry.toJs ⟨"happy", [("happy", JVal.num 1)], 5⟩).getField "confidence"
      = none := by
  refine ⟨?_, ?_, rfl⟩
  · simp [emotionSectionJs, JVal.getField, lookupField]
  · simp [onmessage, trackingFrameJs, emoFrame, getProp, lookupField,
      strictEqStr, handleTrackingData, emotionBranch, emotionSectionJs,
      truthy, charAtStr, spreadFields, trackingState]

/-- processing one well-formed wire tracking_data frame during Tracking
raises no error, keeps the controller in Tracking, and appends exactly
the samples of its present sections to the recorder -/
theorem frame_step (st : AppState) (f : TrackingFrame) (now : Nat)
    (rnd : Bool) (h : st.isTracking = true) :
    (onmessage (some (trackingFrameJs f)) now rnd st).error = none ∧
    (onmessage (some (trackingFrameJs f)) now rnd st).state.isTracking = true ∧
    (onmessage (some (trackingFrameJs f)) now rnd st).state.sessionData.gazePoints
      = st.sessionData.gazePoints ++
        (match f.gaze with
         | some g => [⟨g.GazeX, g.GazeY, now⟩]
         | none => []) ∧
    (onmessage (some (trackingFrameJs f)) now rnd st).state.sessionData.emotions
      = st.sessionData.emotions ++
        (match f.emotion with
         | some e => [emotionEntryOf e now]
         | none => []) := by
  obtain ⟨og, oe⟩ := f
  cases og with
  | none =>
    cases oe with
    | none =>
      simp [onmessage, trackingFrameJs, getProp, lookupField, strictEqStr,
        handleTrackingData, emotionBranch, truthy, h]
    | some es =>
      obtain ⟨emo, scs, conf⟩ := es
      cases conf <;>
        simp [onmessage, trackingFrameJs, getProp, lookupField, strictEqStr,
          handleTrackingData, emotionBranch, gazeSectionJs, emotionSectionJs,
          truthy, toFixedNum, charAtStr, spreadFields, emotionEntryOf, h]
  | some g =>
    cases oe with
    | none =>
      simp [onmessage, trackingFrameJs, getProp, lookupField, strictEqStr,
        handleTrackingData, emotionBranch, gazeSectionJs, truthy,
        toFixedNum, h]
    | some es =>
      obtain ⟨emo, scs, conf⟩ := es
      cases conf <;>
        simp [onmessage, trackingFrameJs, getProp, lookupField, strictEqStr,
          handleTrackingData, emotionBranch, gazeSectionJs, emotionSectionJs,
          truthy, toFixedNum, charAtStr, spreadFields, emotionEntryOf, h]

/-- samples contributed by the present sections of a frame list split
into as many gaze samples and emotion entries -/
theorem frames_section_count (frames : List (TrackingFrame × Nat × Bool)) :
    (framesGaze frames).length + (framesEmotions frames).length
      = sectionCount frames := by
  induction frames with
  | nil => rfl
  | cons fr rest ih =>
    obtain ⟨f, now, rnd⟩ := fr
    cases hg : f.gaze <;> cases he : f.emotion <;>
      simp [framesGaze, framesEmotions, sectionCount, hg, he] <;> omega

/-- C5: for every sequence of inbound wire tracking_data frames
processed while the controller is in Tracking, no error arises, the
controller stays in Tracking, the recorder gains exactly the samples of
the present gaze and emotion sections in receipt order, and the total
stored sample count grows by exactly the number of present sections. -/
theorem C5_tracking_records_sections
    (frames : List (TrackingFrame × Nat × Bool)) (st : AppState)
    (h : st.isTracking = true) :
    (runFrames st frames).2 = [] ∧
    (runFrames st frames).1.isTracking = true ∧
    (runFrames st frames).1.sessionData.gazePoints
      = st.sessionData.gazePoints ++ framesGaze frames ∧
    (runFrames st frames).1.sessionData.emotions
      = st.sessionData.emotions ++ framesEmotions frames ∧
    (runFrames st frames).1.sessionData.gazePoints.length +
      (runFrames st frames).1.sessionData.emotions.length
      = st.sessionData.gazePoints.length + st.sessionData.emotions.length
        + sectionCount frames := by
  induction frames generalizing st with
  | nil => simp [runFrames, framesGaze, framesEmotions, sectionCount, h]
  | cons fr rest ih =>
    obtain ⟨f, now, rnd⟩ := fr
    obtain ⟨he, ht, hg, hem⟩ := frame_step st f now rnd h
    obtain ⟨ihe, iht, ihg, ihem, _⟩ :=
      ih (onmessage (some (trackingFrameJs f)) now rnd st).state ht
    have Hg : (runFrames st ((f, now, rnd) :: rest)).1.sessionData.gazePoints
        = st.sessionData.gazePoints ++ framesGaze ((f, now, rnd) :: rest) := by
      simp [runFrames, ihg, hg, framesGaze]
    have He : (runFrames st ((f, now, rnd) :: rest)).1.sessionData.emotions
        = st.sessionData.emotions ++ framesEmotions ((f, now, rnd) :: rest) := by
      simp [runFrames, ihem, hem, framesEmotions]
    have Hc := frames_section_count ((f, now, rnd) :: rest)
    refine ⟨by simp [runFrames, he, ihe], by simp [runFrames, iht], Hg, He, ?_⟩
    rw [Hg, He]
    simp only [List.length_append]
    omega

/-- witness for C5: three frames (gaze only, both sections, neither)
processed from a tracking state append one gaze sample, one gaze sample
plus one emotion entry, and nothing, in receipt order -/
theorem C5_witness :
    (runFrames trackingState
      [(gazeFrame, 10, false), (bothFrame, 20, true), (emptyFrame, 30, false)]).2
      = [] ∧
    (runFrames trackingState
      [(gazeFrame, 10, false), (bothFrame, 20, true), (emptyFrame, 30, false)]).1.isTracking
      = true ∧
    (runFrames trackingState
      [(gazeFrame, 10, false), (bothFrame, 20, true), (emptyFrame, 30, false)]).1.sessionData.gazePoints
      = trackingState.sessionData.gazePoints ++
        framesGaze [(gazeFrame, 10, false), (bothFrame, 20, true), (emptyFrame, 30, false)] ∧
    (runFrames trackingState
      [(gazeFrame, 10, false), (bothFrame, 20, true), (emptyFrame, 30, false)]).1.sessionData.emotions
      = trackingState.sessionData.emotions ++
        framesEmotions [(gazeFrame, 10, false), (bothFrame, 20, true), (emptyFrame, 30, false)] ∧
    (runFrames trackingState
      [(gazeFrame, 10, false), (bothFrame, 20, true), (emptyFrame, 30, false)]).1.sessionData.gazePoints.length +
      (runFrames trackingState
        [(gazeFrame, 10, false), (bothFrame, 20, true), (emptyFrame, 30, false)]).1.sessionData.emotions.length
      = trackingState.sessionData.gazePoints.length +
        trackingState.sessionData.emotions.length +
        sectionCount [(gazeFrame, 10, false), (bothFrame, 20, true), (emptyFrame, 30, false)] :=
  C5_tracking_records_sections
    [(gazeFrame, 10, false), (bothFrame, 20, true), (emptyFrame, 30, false)]
    trackingState rfl

/-- C1 (amended): export on a session with both sample sequences empty
fails with NoData and builds no artifact; on a session with at least
one emotion sample the exported summary carries both totals and their
sum equals the recorded sample counts exactly; on a session with gaze
samples but no emotion samples an artifact is still built, but its
summary is the degenerate object without the total fields. -/
theorem C1_export_totals (sd : SessionData) (now : Nat) :
    (sd.emotions = [] ∧ sd.gazePoints = [] → exportData now sd = none) ∧
    (sd.emotions ≠ [] →
      ∃ a, exportData now sd = some a ∧
        a.summary.totalEmotionSamples = some sd.emotions.length ∧
        a.summary.totalGazeSamples = some sd.gazePoints.length ∧
        a.summary.totalEmotionSamples.getD 0 + a.summary.totalGazeSamples.getD 0
          = sd.emotions.length + sd.gazePoints.length) ∧
    (sd.emotions = [] → (generateSummary now sd)
      = ⟨"none", [], none, none, none⟩) := by
  refine ⟨?_, ?_, ?_⟩
  · rintro ⟨h1, h2⟩
    simp [exportData, h1, h2]
  · intro h1
    have hlen : sd.emotions.length ≠ 0 := by
      simpa [List.length_eq_zero] using h1
    refine ⟨{ sessionId := sd.startTime, startTime := sd.startTime,
              endTime := now, emotions := sd.emotions,
              gazePoints := sd.gazePoints,
              summary := generateSummary now sd }, ?_, ?_, ?_, ?_⟩ <;>
      simp [exportData, generateSummary, hlen]
  · intro h1
    simp [generateSummary, h1]

/-- counterexample for C1 as stated: a non-empty session holding one
gaze point and no emotion samples exports an artifact whose summary
carries neither total field, so the claimed equality of the totals with
the recorded counts fails. -/
theorem C1_counterexample :
    sdGazeOnly.gazePoints.length = 1 ∧
    (∃ a, exportData 9 sdGazeOnly = some a ∧
      a.summary.totalGazeSamples = none ∧
      a.summary.totalEmotionSamples = none ∧
      ¬ ∃ tg te, a.summary.totalGazeSamples = some tg ∧
          a.summary.totalEmotionSamples = some te ∧
          tg + te = sdGazeOnly.gazePoints.length + sdGazeOnly.emotions.length) := by
  refine ⟨rfl, ⟨_, rfl, ?_, ?_, ?_⟩⟩
  · simp [exportData, generateSummary, sdGazeOnly]
  · simp [exportData, generateSummary, sdGazeOnly]
  · rintro ⟨tg, te, h1, -, -⟩
    simp [exportData, generateSummary, sdGazeOnly] at h1

/-- witness for C1 at a session holding one emotion sample and one gaze
point: an artifact is built and the totals sum to two -/
theorem C1_witness :
    ∃ a, exportData 9 sdOneEach = some a ∧
      a.summary.totalEmotionSamples = some sdOneEach.emotions.length ∧
      a.summary.totalGazeSamples = some sdOneEach.gazePoints.length ∧
      a.summary.totalEmotionSamples.getD 0 + a.summary.totalGazeSamples.getD 0
        = sdOneEach.emotions.length + sdOneEach.gazePoints.length :=
  (C1_export_totals sdOneEach 9).2.1 (by simp [sdOneEach])

/-- a member of a list of naturals is at most the maximum -/
theorem mem_le_maxNat {x : Nat} {l : List Nat} (h : x ∈ l) : x ≤ maxNat l := by
  induction l with
  | nil => cases h
  | cons y ys ih =>
    rcases List.mem_cons.mp h with rfl | hmem
    · exact Nat.le_max_left _ _
    · exact le_trans (ih hmem) (Nat.le_max_right _ _)

/-- an upper bound of all members bounds the maximum -/
theorem maxNat_le {l : List Nat} {m : Nat} (h : ∀ x ∈ l, x ≤ m) :
    maxNat l ≤ m := by
  induction l with
  | nil => exact Nat.zero_le m
  | cons y ys ih =>
    exact Nat.max_le.mpr ⟨h y (List.mem_cons_self y ys),
      ih (fun x hx => h x (List.mem_cons_of_mem y hx))⟩

/-- the count component of a member is at most maxSnd -/
theorem snd_le_maxSnd {r : String × Nat} {l : List (String × Nat)}
    (h : r ∈ l) : r.2 ≤ maxSnd l :=
  mem_le_maxNat (List.mem_map_of_mem Prod.snd h)

/-- maxSnd of a cons -/
theorem maxSnd_cons (q : String × Nat) (l : List (String × Nat)) :
    maxSnd (q :: l) = max q.2 (maxSnd l) := by
  simp [maxSnd, maxNat]

/-- membership in the first-occurrence list is plain membership -/
theorem mem_firstOccs {x : String} {ls : List String} :
    x ∈ firstOccs ls ↔ x ∈ ls := by
  induction ls with
  | nil => simp [firstOccs]
  | cons a as ih =>
    by_cases hxa : x = a
    · simp [firstOccs, hxa]
    · simp [firstOccs, List.mem_filter, ih, hxa, bne_iff_ne]

/-- the first-occurrence list has no duplicates -/
theorem firstOccs_nodup (ls : List String) : (firstOccs ls).Nodup := by
  induction ls with
  | nil => exact List.nodup_nil
  | cons a as ih =>
    refine List.Nodup.cons ?_ (List.Nodup.filter _ ih)
    intro hmem
    rcases List.mem_filter.mp hmem with ⟨-, hne⟩
    simp at hne

/-- absent labels have occurrence count zero -/
theorem countOcc_eq_zero {k : String} {ls : List String} (h : k ∉ ls) :
    countOcc k ls = 0 := by
  induction ls with
  | nil => rfl
  | cons a as ih =>
    have hka : ¬ a = k := fun hh => h (hh ▸ List.mem_cons_self a as)
    have hmem : k ∉ as := fun hh => h (List.mem_cons_of_mem a hh)
    simp [countOcc, hka, ih hmem]

/-- present labels have occurrence count at least one -/
theorem countOcc_pos {k : String} {ls : List String} (h : k ∈ ls) :
    1 ≤ countOcc k ls := by
  induction ls with
  | nil => cases h
  | cons a as ih =>
    rcases List.mem_cons.mp h with rfl | hmem
    · simp [countOcc]
    · rcases ih hmem with hh
      simp only [countOcc]
      omega

/-- occurrence count after appending one label -/
theorem countOcc_snoc (k l : String) (ls : List String) :
    countOcc k (ls ++ [l]) = countOcc k ls + (if l = k then 1 else 0) := by
  induction ls with
  | nil => simp [countOcc]
  | cons a as ih => simp [countOcc, ih]; omega

/-- first-occurrence list after appending one label -/
theorem firstOccs_snoc (l : String) (ls : List String) :
    firstOccs (ls ++ [l])
      = firstOccs ls ++ (if l ∈ ls then [] else [l]) := by
  induction ls with
  | nil => simp [firstOccs]
  | cons a as ih =>
    by_cases hla : l = a
    · subst hla
      by_cases hmem : l ∈ as <;>
        simp [firstOccs, ih, hmem, List.filter_append]
    · by_cases hmem : l ∈ as <;>
        simp [firstOccs, ih, hmem, List.filter_append, hla, List.mem_cons,
          Ne.symm hla, bne_iff_ne]

/-- bumping a key already present in a duplicate-free counts list
increments exactly that entry -/
theorem bump_inc (f : List String) (c : String → Nat) (l : String)
    (hn : f.Nodup) (hm : l ∈ f) :
    bumpCount (f.map (fun k => (k, c k))) l
      = f.map (fun k => (k, c k + if k = l then 1 else 0)) := by
  induction f with
  | nil => cases hm
  | cons k0 f' ih =>
    rcases List.nodup_cons.mp hn with ⟨hk0, hn'⟩
    by_cases hl : k0 = l
    · have htail : f'.map (fun k => (k, c k + if k = l then 1 else 0))
          = f'.map (fun k => (k, c k)) := by
        apply List.map_congr_left
        intro k hk
        have hkl : ¬ k = l := by
          intro hh
          rw [hh, ← hl] at hk
          exact hk0 hk
        simp [hkl]
      simp [bumpCount, hl, htail]
    · rcases List.mem_cons.mp hm with rfl | hmem
      · exact absurd rfl hl
      · simp [bumpCount, hl, ih hn' hmem]

/-- bumping an absent key appends it with count one -/
theorem bump_new (f : List String) (c : String → Nat) (l : String)
    (hm : l ∉ f) :
    bumpCount (f.map (fun k => (k, c k))) l
      = f.map (fun k => (k, c k)) ++ [(l, 1)] := by
  induction f with
  | nil => rfl
  | cons k0 f' ih =>
    have hne : ¬ k0 = l := fun hh => hm (hh ▸ List.mem_cons_self k0 f')
    have hmem : l ∉ f' := fun hh => hm (List.mem_cons_of_mem k0 hh)
    simp [bumpCount, hne, ih hmem]

/-- the counts object built by the forEach loop of app.js:359-363 maps
each distinct label, in first-occurrence order, to its occurrence count -/
theorem counts_char (ls : List String) :
    ls.foldl bumpCount []
      = (firstOccs ls).map (fun k => (k, countOcc k ls)) := by
  induction ls using List.reverseRecOn with
  | nil => rfl
  | append_singleton ls l ih =>
    rw [List.foldl_append, List.foldl_cons, List.foldl_nil, ih]
    by_cases hm : l ∈ ls
    · have hmf : l ∈ firstOccs ls := mem_firstOccs.mpr hm
      rw [bump_inc (firstOccs ls) (fun k => countOcc k ls) l
        (firstOccs_nodup ls) hmf]
      rw [firstOccs_snoc, if_pos hm, List.append_nil]
      apply List.map_congr_left
      intro k hk
      rw [countOcc_snoc]
      by_cases hkl : k = l
      · simp [hkl]
      · have hlk : ¬ l = k := fun hh => hkl hh.symm
        simp [hkl, hlk]
    · have hmf : l ∉ firstOccs ls := fun hh => hm (mem_firstOccs.mp hh)
      rw [bump_new (firstOccs ls) (fun k => countOcc k ls) l hmf]
      rw [firstOccs_snoc, if_neg hm, List.map_append]
      congr 1
      · apply List.map_congr_left
        intro k hk
        have hkl : ¬ l = k := by
          intro hh
          exact hm (hh ▸ mem_firstOccs.mp hk)
        rw [countOcc_snoc, if_neg hkl]
        simp
      · simp [countOcc_snoc, countOcc_eq_zero hm]

/-- the running-maximum loop never moves once the accumulator already
dominates every remaining count -/
theorem scan_stable (l : List (String × Nat)) (p : String × Nat)
    (h : ∀ q ∈ l, q.2 ≤ p.2) :
    l.foldl (fun pm kc => if kc.2 > pm.2 then kc else pm) p = p := by
  induction l with
  | nil => rfl
  | cons q l ih =>
    rw [List.foldl_cons, if_neg]
    · exact ih (fun r hr => h r (List.mem_cons_of_mem q hr))
    · exact Nat.not_lt.mpr (h q (List.mem_cons_self q l))

/-- when the accumulator starts strictly below the maximal count, the
running-maximum loop returns the first entry attaining that maximum -/
theorem scan_finds (l : List (String × Nat)) :
    ∀ p0 : String × Nat, p0.2 < maxSnd l →
    ∃ k, l.find? (fun q => q.2 == maxSnd l) = some (k, maxSnd l) ∧
      l.foldl (fun pm kc => if kc.2 > pm.2 then kc else pm) p0
        = (k, maxSnd l) := by
  induction l with
  | nil =>
    intro p0 h
    simp [maxSnd, maxNat] at h
  | cons q l ih =>
    intro p0 h
    by_cases hq : q.2 = maxSnd (q :: l)
    · refine ⟨q.1, ?_, ?_⟩
      · rw [List.find?_cons_of_pos _ (by simp [hq])]
        rw [← hq]
      · have hgt : q.2 > p0.2 := hq ▸ h
        rw [List.foldl_cons, if_pos hgt]
        have hbound : ∀ r ∈ l, r.2 ≤ q.2 := by
          intro r hr
          rw [hq, maxSnd_cons]
          exact le_trans (snd_le_maxSnd hr) (Nat.le_max_right _ _)
        rw [scan_stable l q hbound, ← hq]
    · have hle : q.2 ≤ maxSnd (q :: l) :=
        snd_le_maxSnd (List.mem_cons_self q l)
      have hlt : q.2 < maxSnd (q :: l) := lt_of_le_of_ne hle hq
      have hmax : maxSnd (q :: l) = maxSnd l := by
        rw [maxSnd_cons]
        rcases Nat.le_total q.2 (maxSnd l) with hc | hc
        · exact Nat.max_eq_right hc
        · exact absurd (by rw [maxSnd_cons, Nat.max_eq_left hc]) hq
      rw [List.find?_cons_of_neg _ (by simp [hq])]
      rw [List.foldl_cons, hmax]
      rw [hmax] at hlt h
      by_cases hstep : q.2 > p0.2
      · rw [if_pos hstep]
        exact ih q hlt
      · rw [if_neg hstep]
        exact ih p0 h

/-- find over a counts list built from distinct labels is find over the
labels -/
theorem find?_counts_map (f : List String) (c : String → Nat) (M : Nat) :
    (f.map (fun k => (k, c k))).find? (fun q => q.2 == M)
      = (f.find? (fun k => c k == M)).map (fun k => (k, c k)) := by
  induction f with
  | nil => rfl
  | cons k0 f' ih =>
    by_cases hk : c k0 = M
    · rw [List.map_cons, List.find?_cons_of_pos _ (by simp [hk]),
        List.find?_cons_of_pos _ (by simp [hk])]
      rfl
    · rw [List.map_cons, List.find?_cons_of_neg _ (by simp [hk]),
        List.find?_cons_of_neg _ (by simp [hk]), ih]

/-- the maximal count over the counts object equals the maximal
occurrence count over the labels -/
theorem maxSnd_counts (ls : List String) :
    maxSnd ((firstOccs ls).map (fun k => (k, countOcc k ls)))
      = maxOccur ls := by
  have hmap : ((firstOccs ls).map (fun k => (k, countOcc k ls))).map Prod.snd
      = (firstOccs ls).map (fun k => countOcc k ls) := by
    rw [List.map_map]
    rfl
  rw [maxSnd, hmap, maxOccur]
  apply Nat.le_antisymm
  · apply maxNat_le
    intro x hx
    rcases List.mem_map.mp hx with ⟨k, hk, rfl⟩
    exact mem_le_maxNat (List.mem_map_of_mem _ (mem_firstOccs.mp hk))
  · apply maxNat_le
    intro x hx
    rcases List.mem_map.mp hx with ⟨k, hk, rfl⟩
    exact mem_le_maxNat (List.mem_map_of_mem _ (mem_firstOccs.mpr hk))

/-- for-in enumeration keeps a counts list unchanged when no key is a
canonical array index -/
theorem forInOrder_id (counts : List (String × Nat))
    (h : ∀ p ∈ counts, isArrayIndexKey p.1 = false) :
    forInOrder counts = counts := by
  have h1 : counts.filter (fun p => isArrayIndexKey p.1) = [] := by
    rw [List.filter_eq_nil_iff]
    intro p hp
    simp [h p hp]
  have h2 : counts.filter (fun p => !isArrayIndexKey p.1) = counts := by
    rw [List.filter_eq_self]
    intro p hp
    simp [h p hp]
  rw [forInOrder, h1, h2]
  rfl

/-- the primary-emotion scan over the counts object picks exactly the
first-seen label among those with the highest occurrence count, for a
non-empty label list without array-index keys -/
theorem primary_of_labels (labels : List String) (hne : labels ≠ [])
    (hkeys : ∀ k ∈ labels, isArrayIndexKey k = false) :
    some (primaryScan (forInOrder (labels.foldl bumpCount []))).1
      = specFirstSeenMax labels := by
  rw [counts_char labels]
  have hkeys2 : ∀ p ∈ (firstOccs labels).map (fun k => (k, countOcc k labels)),
      isArrayIndexKey p.1 = false := by
    intro p hp
    rcases List.mem_map.mp hp with ⟨k, hk, rfl⟩
    exact hkeys k (mem_firstOccs.mp hk)
  rw [forInOrder_id _ hkeys2]
  have hpos : 0 < maxSnd ((firstOccs labels).map (fun k => (k, countOcc k labels))) := by
    obtain ⟨a, as, rfl⟩ := List.exists_cons_of_ne_nil hne
    have hain : a ∈ a :: as := List.mem_cons_self a as
    have hmem : (a, countOcc a (a :: as)) ∈
        (firstOccs (a :: as)).map (fun k => (k, countOcc k (a :: as))) :=
      List.mem_map_of_mem _ (mem_firstOccs.mpr hain)
    have h1 := snd_le_maxSnd hmem
    have h2 := countOcc_pos hain
    simp only at h1
    omega
  obtain ⟨k, hfind, hfold⟩ := scan_finds _ ("neutral", 0) hpos
  rw [find?_counts_map] at hfind
  simp only [primaryScan]
  rw [hfold]
  simp only [specFirstSeenMax, ← maxSnd_counts labels]
  rcases h' : (firstOccs labels).find?
      (fun k2 => countOcc k2 labels ==
        maxSnd ((firstOccs labels).map (fun k3 => (k3, countOcc k3 labels))))
    with - | k'
  · rw [h'] at hfind
    simp at hfind
  · rw [h'] at hfind
    simp only [Option.map_some', Option.some.injEq, Prod.mk.injEq] at hfind
    rw [hfind.1]

/-- C2 (amended): with no emotion samples the summary's primaryEmotion
defaults to none (the early-return branch); with at least one emotion
sample whose labels are not canonical array-index strings, it is the
label with the highest occurrence count, ties broken in favour of the
first-seen label in occurrence order. -/
theorem C2_primary_emotion (sd : SessionData) (now : Nat) :
    (sd.emotions = [] → (generateSummary now sd).primaryEmotion = "none") ∧
    (sd.emotions ≠ [] →
     (∀ e ∈ sd.emotions, isArrayIndexKey e.emotion = false) →
     some (generateSummary now sd).primaryEmotion
       = specFirstSeenMax (sd.emotions.map (fun e => e.emotion))) := by
  constructor
  · intro h1
    simp [generateSummary, h1]
  · intro h1 h2
    have hlen : ¬ sd.emotions.length = 0 := by
      simpa [List.length_eq_zero] using h1
    have hlabne : sd.emotions.map (fun e => e.emotion) ≠ [] := by
      simpa using h1
    have hkeys : ∀ k ∈ sd.emotions.map (fun e => e.emotion),
        isArrayIndexKey k = false := by
      intro k hk
      rcases List.mem_map.mp hk with ⟨e, he, rfl⟩
      exact h2 e he
    have := primary_of_labels (sd.emotions.map (fun e => e.emotion))
      hlabne hkeys
    simpa [generateSummary, hlen] using this

/-- counterexample for C2 as stated: a session with no emotion samples
(but one gaze point, so the session is not empty) yields a summary
whose primaryEmotion is none, not the claimed default neutral. -/
theorem C2_counterexample :
    (generateSummary 0 sdGazeOnly).primaryEmotion = "none" ∧
    (generateSummary 0 sdGazeOnly).primaryEmotion ≠ "neutral" := by
  refine ⟨rfl, by decide⟩

/-- witness for C2 at the tie example of the spec: happy and sad both
occur three times and happy, seen first, wins -/
theorem C2_witness :
    (generateSummary 7 sdTie).primaryEmotion = "happy" ∧
    some (generateSummary 7 sdTie).primaryEmotion
      = specFirstSeenMax (sdTie.emotions.map (fun e => e.emotion)) ∧
    specFirstSeenMax (sdTie.emotions.map (fun e => e.emotion))
      = some "happy" :=
  ⟨rfl,
   (C2_primary_emotion sdTie 7).2 (by simp [sdTie]) (by decide),
   by decide⟩
